import Mathlib

/-!
Verification of the view CRUD service core (`backend/src/workspace_service/view/view.rs`)
and its supporting SQL statement builder, constrained value parsers and
transaction-scoped execution pipeline.

The orchestration code (`create_view`, `read_view`, `update_view`, `delete_view`,
`read_views_belong_to_id`, `check_view_id`) is embedded directly from the source.
Collaborators that live outside the provided source tree (the `SqlBuilder`, the
constrained value parsers, `map_sqlx_error`, the `sqlx` row-fetch behaviour and
the database execution semantics) are modelled from the specification, as noted
on each definition.
-/

namespace ViewService

/-- A bound SQL argument value (the dynamic value types used by the view service:
uuids, strings, timestamps, integers and booleans). -/
inductive Val : Type where
  | vUuid : String → Val
  | vStr : String → Val
  | vTime : Nat → Val
  | vInt : Int → Val
  | vBool : Bool → Val
deriving DecidableEq, Repr

/-- Decimal digit character for `d < 10`. -/
def digitChar (d : Nat) : Char := Char.ofNat (48 + d)

/-- Most-significant-first decimal digits of `n`, fuel-based so that it is
structurally recursive (the fuel `n + 1` always suffices). -/
def natCharsAux : Nat → Nat → List Char
  | 0, _ => []
  | fuel + 1, n =>
    if n < 10 then [digitChar n]
    else natCharsAux fuel (n / 10) ++ [digitChar (n % 10)]

/-- Decimal representation of `n` as characters. -/
def natChars (n : Nat) : List Char := natCharsAux (n + 1) n

/-- Render the 1-indexed positional placeholder `$k`. -/
def placeholderChars (k : Nat) : List Char := '$' :: natChars k

/-- Scanner state + step for extracting the positional placeholder numbers that
occur in a SQL text, in textual order: a `$` starts a number, digit characters
extend it, any other character terminates it. -/
def extractAux : List Char → Option Nat → List Nat
  | [], none => []
  | [], some n => [n]
  | c :: cs, none =>
    if c = '$' then extractAux cs (some 0) else extractAux cs none
  | c :: cs, some n =>
    if c.isDigit then extractAux cs (some (10 * n + (c.toNat - 48)))
    else if c = '$' then n :: extractAux cs (some 0)
    else n :: extractAux cs none

/-- The placeholder numbers occurring in a SQL text, in textual order. -/
def extractPlaceholders (s : String) : List Nat := extractAux s.data none

/-- The four statement shapes the builder supports. -/
inductive StmtKind : Type where
  | insert
  | select
  | update
  | delete
deriving DecidableEq, Repr

/-- Modelled from the spec: the `SqlBuilder` of `sqlx_ext` is not under the
provided source tree.  Per the spec it holds the table name, the statement
shape, the selected fields, an ordered list of tagged field/value contributions
(`none` marks a contribution that was skipped and must contribute neither
column text nor an argument slot), and the equality conditions of the `WHERE`
clause. -/
structure SqlBuilder : Type where
  table : String
  kind : StmtKind
  fields : List String
  args : List (String × Option Val)
  conds : List (String × Val)
deriving DecidableEq, Repr

namespace SqlBuilder

/-- Constructor `SqlBuilder::create(table)` — start an `INSERT` builder. -/
def create (t : String) : SqlBuilder := ⟨t, .insert, [], [], []⟩

/-- Constructor `SqlBuilder::select(table)` — start a `SELECT` builder. -/
def select (t : String) : SqlBuilder := ⟨t, .select, [], [], []⟩

/-- Constructor `SqlBuilder::update(table)` — start an `UPDATE` builder. -/
def update (t : String) : SqlBuilder := ⟨t, .update, [], [], []⟩

/-- Constructor `SqlBuilder::delete(table)` — start a `DELETE` builder. -/
def delete (t : String) : SqlBuilder := ⟨t, .delete, [], [], []⟩

/-- Method `add_arg` — unconditionally include a field/value pair, in call order. -/
def add_arg (b : SqlBuilder) (c : String) (v : Val) : SqlBuilder :=
  { b with args := b.args ++ [(c, some v)] }

/-- Method `add_some_arg` — include a field/value pair only when the optional value is
present; an absent pair contributes neither column text nor an argument slot. -/
def add_some_arg (b : SqlBuilder) (c : String) (o : Option Val) : SqlBuilder :=
  { b with args := b.args ++ [(c, o)] }

/-- Method `add_arg_if` — include a field/value pair only when the caller-evaluated
predicate is true (presence keyed on the predicate, not on the value). -/
def add_arg_if (b : SqlBuilder) (p : Bool) (c : String) (v : Val) : SqlBuilder :=
  { b with args := b.args ++ [(c, if p then some v else none)] }

/-- Method `add_field` — add a field to the selection list of a `SELECT`. -/
def add_field (b : SqlBuilder) (f : String) : SqlBuilder :=
  { b with fields := b.fields ++ [f] }

/-- Method `and_where_eq` — add an equality condition to the `WHERE` clause. -/
def and_where_eq (b : SqlBuilder) (c : String) (v : Val) : SqlBuilder :=
  { b with conds := b.conds ++ [(c, v)] }

/-- The contributions that are actually included, in add order. -/
def includedArgs (b : SqlBuilder) : List (String × Val) :=
  b.args.filterMap fun p => p.2.map fun v => (p.1, v)

end SqlBuilder

/-- Comma-separated join of plain names (no placeholders). -/
def commaJoinChars : List String → List Char
  | [] => []
  | [s] => s.data
  | s :: t :: rest => s.data ++ (", ").data ++ commaJoinChars (t :: rest)

/-- Join clauses `pᵢ ++ $kᵢ` with the separator `sep`, numbering placeholders
consecutively from `k`: each clause is a prefix (e.g. `name = `, or empty for a
`VALUES` list) followed by the next positional placeholder. -/
def joinClauses (sep : List Char) : List (List Char) → Nat → List Char
  | [], _ => []
  | [p], k => p ++ placeholderChars k
  | p :: q :: ps, k =>
    p ++ placeholderChars k ++ sep ++ joinClauses sep (q :: ps) (k + 1)

/-- The rendered `WHERE` clause, placeholders numbered from `start`. -/
def whereChars (conds : List (String × Val)) (start : Nat) : List Char :=
  match conds with
  | [] => []
  | _ :: _ =>
    (" WHERE ").data ++
      joinClauses (" AND ").data (conds.map fun p => p.1.data ++ (" = ").data) start

namespace SqlBuilder

/-- Modelled from the spec: `SqlBuilder::build` renders the SQL text with
1-indexed positional placeholders assigned strictly in add order, skipping
absent optional contributions entirely, and returns the SQL paired with the
argument list in placeholder order.  It fails when an `INSERT` has no columns
or an `UPDATE` has an empty `SET` clause. -/
def build (b : SqlBuilder) : Except String (String × List Val) :=
  match b.kind with
  | .insert =>
    let incl := b.includedArgs
    if incl.isEmpty then .error "no column in the insert statement"
    else
      .ok (String.mk (("INSERT INTO ").data ++ b.table.data ++ (" (").data ++
              commaJoinChars (incl.map fun p => p.1) ++ (") VALUES (").data ++
              joinClauses (", ").data (incl.map fun _ => []) 1 ++ (")").data),
            incl.map fun p => p.2)
  | .select =>
    .ok (String.mk (("SELECT ").data ++ commaJoinChars b.fields ++
            (" FROM ").data ++ b.table.data ++ whereChars b.conds 1),
          b.conds.map fun p => p.2)
  | .update =>
    let incl := b.includedArgs
    if incl.isEmpty then .error "no field to update"
    else
      .ok (String.mk (("UPDATE ").data ++ b.table.data ++ (" SET ").data ++
              joinClauses (", ").data (incl.map fun p => p.1.data ++ (" = ").data) 1 ++
              whereChars b.conds (incl.length + 1)),
            (incl.map fun p => p.2) ++ b.conds.map fun p => p.2)
  | .delete =>
    .ok (String.mk (("DELETE FROM ").data ++ b.table.data ++ whereChars b.conds 1),
          b.conds.map fun p => p.2)

/-- No name fed to the builder contains the placeholder marker `$`. -/
def noDollar (b : SqlBuilder) : Prop :=
  ('$' ∉ b.table.data) ∧ (∀ f ∈ b.fields, '$' ∉ f.data) ∧
    (∀ p ∈ b.args, '$' ∉ (Prod.fst p).data) ∧ (∀ p ∈ b.conds, '$' ∉ (Prod.fst p).data)

instance (b : SqlBuilder) : Decidable b.noDollar := by
  unfold noDollar; infer_instance

end SqlBuilder

/-- Decimal parse of a digit run, folded onto an accumulator `m` (the same step
the placeholder scanner uses). -/
def parseFold (m : Nat) (ds : List Char) : Nat :=
  ds.foldl (fun a c => 10 * a + (c.toNat - 48)) m

/-- The head of the character list, if any, is not a digit. -/
def headNotDigit : List Char → Prop
  | [] => True
  | c :: _ => c.isDigit = false

lemma digitChar_facts : ∀ d, d < 10 →
    (digitChar d).isDigit = true ∧ digitChar d ≠ '$' ∧ (digitChar d).toNat - 48 = d := by
  decide

lemma parseFold_append (m : Nat) (a b : List Char) :
    parseFold m (a ++ b) = parseFold (parseFold m a) b := by
  simp [parseFold, List.foldl_append]

lemma natCharsAux_digits : ∀ fuel n, n < fuel →
    ∀ c ∈ natCharsAux fuel n, c.isDigit = true ∧ c ≠ '$' := by
  intro fuel
  induction fuel with
  | zero => intro n h; omega
  | succ fuel ih =>
    intro n h c hc
    unfold natCharsAux at hc
    by_cases h10 : n < 10
    · simp [h10] at hc
      subst hc
      exact ⟨(digitChar_facts n h10).1, (digitChar_facts n h10).2.1⟩
    · simp [h10] at hc
      rcases hc with hc | hc
      · have hlt : n / 10 < fuel := by
          have := Nat.div_lt_self (by omega : 0 < n) (by omega : 1 < 10)
          omega
        exact ih (n / 10) hlt c hc
      · subst hc
        have hm : n % 10 < 10 := Nat.mod_lt _ (by omega)
        exact ⟨(digitChar_facts _ hm).1, (digitChar_facts _ hm).2.1⟩

lemma natCharsAux_parse : ∀ fuel n m, n < fuel →
    parseFold m (natCharsAux fuel n) = m * 10 ^ (natCharsAux fuel n).length + n := by
  intro fuel
  induction fuel with
  | zero => intro n m h; omega
  | succ fuel ih =>
    intro n m h
    unfold natCharsAux
    by_cases h10 : n < 10
    · simp only [h10, if_true]
      have hd := (digitChar_facts n h10).2.2
      simp [parseFold, hd]
      ring_nf
    · simp only [h10, if_false]
      have hlt : n / 10 < fuel := by
        have := Nat.div_lt_self (by omega : 0 < n) (by omega : 1 < 10)
        omega
      rw [parseFold_append, ih (n / 10) m hlt]
      have hm : n % 10 < 10 := Nat.mod_lt _ (by omega)
      have hd := (digitChar_facts _ hm).2.2
      simp [parseFold, hd, pow_succ]
      generalize (10 : Nat) ^ (natCharsAux fuel (n / 10)).length = L
      have := Nat.div_add_mod n 10
      ring_nf
      omega

lemma natChars_digits (n : Nat) : ∀ c ∈ natChars n, c.isDigit = true ∧ c ≠ '$' :=
  natCharsAux_digits (n + 1) n (Nat.lt_succ_self n)

lemma natChars_parse (n : Nat) : parseFold 0 (natChars n) = n := by
  have := natCharsAux_parse (n + 1) n 0 (Nat.lt_succ_self n)
  simpa [natChars] using this

lemma extractAux_append_none (a b : List Char) (ha : '$' ∉ a) :
    extractAux (a ++ b) none = extractAux b none := by
  induction a with
  | nil => rfl
  | cons c cs ih =>
    have hc : ¬ (c = '$') := fun h => ha (h ▸ List.mem_cons_self c cs)
    have hcs : '$' ∉ cs := fun h => ha (List.mem_cons_of_mem _ h)
    simp [extractAux, hc, ih hcs]

lemma extractAux_digits (ds : List Char) (hds : ∀ c ∈ ds, c.isDigit = true) :
    ∀ b m, extractAux (ds ++ b) (some m) = extractAux b (some (parseFold m ds)) := by
  induction ds with
  | nil => intro b m; rfl
  | cons c cs ih =>
    intro b m
    have hc : c.isDigit = true := hds c (List.mem_cons_self c cs)
    have hcs : ∀ x ∈ cs, x.isDigit = true := fun x hx => hds x (List.mem_cons_of_mem _ hx)
    simp only [List.cons_append, extractAux, hc, if_true]
    exact ih hcs b (10 * m + (c.toNat - 48))

lemma extractAux_some_head (b : List Char) (n : Nat) (hb : headNotDigit b) :
    extractAux b (some n) = n :: extractAux b none := by
  cases b with
  | nil => rfl
  | cons c cs =>
    have hc : c.isDigit = false := hb
    by_cases h : c = '$' <;> simp [extractAux, hc, h]

lemma extractAux_placeholder (k : Nat) (b : List Char) (hb : headNotDigit b) :
    extractAux (placeholderChars k ++ b) none = k :: extractAux b none := by
  have h1 : extractAux (placeholderChars k ++ b) none
      = extractAux (natChars k ++ b) (some 0) := by
    simp [placeholderChars, extractAux]
  rw [h1, extractAux_digits (natChars k) (fun c hc => (natChars_digits k c hc).1) b 0,
    natChars_parse, extractAux_some_head b k hb]

lemma extractAux_join (sep : List Char) (hsep : '$' ∉ sep)
    (hsephd : headNotDigit sep) (hsepne : sep ≠ []) :
    ∀ ps k rest, (∀ p ∈ ps, '$' ∉ p) → headNotDigit rest →
      extractAux (joinClauses sep ps k ++ rest) none
        = List.range' k ps.length ++ extractAux rest none := by
  intro ps
  induction ps with
  | nil => intro k rest _ _; simp [joinClauses]
  | cons p ps ih =>
    intro k rest hps hrest
    have hp : '$' ∉ p := hps p (List.mem_cons_self p ps)
    cases ps with
    | nil =>
      simp only [joinClauses, List.append_assoc]
      rw [extractAux_append_none p _ hp, extractAux_placeholder k rest hrest]
      simp [List.range']
    | cons q ps' =>
      have hps' : ∀ x ∈ q :: ps', '$' ∉ x := fun x hx => hps x (List.mem_cons_of_mem _ hx)
      have hrest' : headNotDigit (sep ++ (joinClauses sep (q :: ps') (k + 1) ++ rest)) := by
        cases sep with
        | nil => exact absurd rfl hsepne
        | cons s ss => exact hsephd
      simp only [joinClauses, List.append_assoc]
      rw [extractAux_append_none p _ hp,
        extractAux_placeholder k _ hrest',
        extractAux_append_none sep _ hsep,
        ih (k + 1) rest hps' hrest]
      simp [List.range'_succ]

lemma commaJoinChars_noDollar : ∀ l : List String,
    (∀ s ∈ l, '$' ∉ s.data) → '$' ∉ commaJoinChars l := by
  intro l
  induction l with
  | nil => intro _; simp [commaJoinChars]
  | cons s t ih =>
    cases t with
    | nil =>
      intro h
      simpa [commaJoinChars] using h s (List.mem_cons_self s [])
    | cons u v =>
      intro h
      have hs : '$' ∉ s.data := h s (List.mem_cons_self _ _)
      have hrest : '$' ∉ commaJoinChars (u :: v) :=
        ih (fun x hx => h x (List.mem_cons_of_mem _ hx))
      simp only [commaJoinChars, List.mem_append]
      rintro (⟨h1 | h2⟩ | h3)
      · exact hs h1
      · revert h2; decide
      · exact hrest h3

lemma includedArgs_fst_mem (b : SqlBuilder) :
    ∀ p ∈ b.includedArgs, ∃ o, (Prod.fst p, o) ∈ b.args := by
  intro p hp
  simp only [SqlBuilder.includedArgs, List.mem_filterMap] at hp
  rcases hp with ⟨⟨c, o⟩, hmem, hf⟩
  cases o with
  | none => simp at hf
  | some v =>
    simp only [Option.map_some'] at hf
    cases hf
    exact ⟨some v, hmem⟩

lemma whereChars_headNotDigit (conds : List (String × Val)) (start : Nat) :
    headNotDigit (whereChars conds start) := by
  cases conds with
  | nil => trivial
  | cons c cs => simp [whereChars, headNotDigit]

lemma whereChars_extract (conds : List (String × Val)) (start : Nat)
    (h : ∀ p ∈ conds, '$' ∉ (Prod.fst p).data) :
    extractAux (whereChars conds start) none = List.range' start conds.length := by
  cases conds with
  | nil => simp [whereChars, extractAux, List.range']
  | cons c cs =>
    have hps : ∀ p ∈ (c :: cs).map (fun p => (Prod.fst p).data ++ (" = ").data),
        '$' ∉ p := by
      intro p hp
      simp only [List.mem_map] at hp
      rcases hp with ⟨q, hq, rfl⟩
      simp only [List.mem_append]
      rintro (h1 | h2)
      · exact h q hq h1
      · revert h2; decide
    have hj := extractAux_join (" AND ").data (by decide)
      (by simp [headNotDigit]) (by simp)
      ((c :: cs).map (fun p => (Prod.fst p).data ++ (" = ").data)) start [] hps trivial
    simp only [whereChars]
    rw [extractAux_append_none _ _ (by decide)]
    simpa [extractAux] using hj

lemma build_extract (b : SqlBuilder) (h : b.noDollar) (sql : String) (args : List Val)
    (hb : b.build = .ok (sql, args)) :
    extractPlaceholders sql = List.range' 1 args.length := by
  obtain ⟨htable, hfields, hargs, hconds⟩ := h
  cases hk : b.kind with
  | insert =>
    have hincl : ∀ p ∈ b.includedArgs, '$' ∉ (Prod.fst p).data := by
      intro p hp
      rcases includedArgs_fst_mem b p hp with ⟨o, ho⟩
      exact hargs _ ho
    unfold SqlBuilder.build at hb
    rw [hk] at hb
    by_cases he : b.includedArgs.isEmpty
    · simp [he] at hb
    · simp only [he, Bool.false_eq_true, if_false, Except.ok.injEq, Prod.mk.injEq] at hb
      obtain ⟨hsql, hargsEq⟩ := hb
      subst hsql hargsEq
      show extractAux _ none = _
      simp only [List.append_assoc]
      rw [extractAux_append_none _ _ (by decide),
        extractAux_append_none _ _ htable,
        extractAux_append_none _ _ (by decide),
        extractAux_append_none _ _
          (commaJoinChars_noDollar _ (by
            intro s hs
            simp only [List.mem_map] at hs
            rcases hs with ⟨q, hq, rfl⟩
            exact hincl q hq)),
        extractAux_append_none _ _ (by decide)]
      have hj := extractAux_join (", ").data (by decide)
        (by simp [headNotDigit]) (by simp)
        (b.includedArgs.map fun _ => []) 1 ((")").data)
        (by intro p hp; simp only [List.mem_map] at hp; rcases hp with ⟨q, hq, rfl⟩; simp)
        (by simp [headNotDigit])
      rw [hj]
      simp [extractAux]
  | select =>
    unfold SqlBuilder.build at hb
    rw [hk] at hb
    simp only [Except.ok.injEq, Prod.mk.injEq] at hb
    obtain ⟨hsql, hargsEq⟩ := hb
    subst hsql hargsEq
    show extractAux _ none = _
    simp only [List.append_assoc]
    rw [extractAux_append_none _ _ (by decide),
      extractAux_append_none _ _ (commaJoinChars_noDollar _ hfields),
      extractAux_append_none _ _ (by decide),
      extractAux_append_none _ _ htable,
      whereChars_extract b.conds 1 hconds]
    simp
  | update =>
    have hincl : ∀ p ∈ b.includedArgs, '$' ∉ (Prod.fst p).data := by
      intro p hp
      rcases includedArgs_fst_mem b p hp with ⟨o, ho⟩
      exact hargs _ ho
    unfold SqlBuilder.build at hb
    rw [hk] at hb
    by_cases he : b.includedArgs.isEmpty
    · simp [he] at hb
    · simp only [he, Bool.false_eq_true, if_false, Except.ok.injEq, Prod.mk.injEq] at hb
      obtain ⟨hsql, hargsEq⟩ := hb
      subst hsql hargsEq
      show extractAux _ none = _
      simp only [List.append_assoc]
      rw [extractAux_append_none _ _ (by decide),
        extractAux_append_none _ _ htable,
        extractAux_append_none _ _ (by decide)]
      have hj := extractAux_join (", ").data (by decide)
        (by simp [headNotDigit]) (by simp)
        (b.includedArgs.map fun p => (Prod.fst p).data ++ (" = ").data) 1
        (whereChars b.conds (b.includedArgs.length + 1))
        (by
          intro p hp
          simp only [List.mem_map] at hp
          rcases hp with ⟨q, hq, rfl⟩
          simp only [List.mem_append]
          rintro (h1 | h2)
          · exact hincl q hq h1
          · revert h2; decide)
        (whereChars_headNotDigit _ _)
      rw [hj, whereChars_extract b.conds (b.includedArgs.length + 1) hconds]
      have := List.range'_append 1 b.includedArgs.length b.conds.length 1
      simp only [one_mul, List.length_map, List.length_append]
      simp only [List.length_map] at this
      rw [show 1 + 1 * b.includedArgs.length = b.includedArgs.length + 1 by omega] at this
      rw [this]
      congr 1
      omega
  | delete =>
    unfold SqlBuilder.build at hb
    rw [hk] at hb
    simp only [Except.ok.injEq, Prod.mk.injEq] at hb
    obtain ⟨hsql, hargsEq⟩ := hb
    subst hsql hargsEq
    show extractAux _ none = _
    simp only [List.append_assoc]
    rw [extractAux_append_none _ _ (by decide),
      extractAux_append_none _ _ htable,
      whereChars_extract b.conds 1 hconds]
    simp

end ViewService

namespace ViewService

/-- Whether `c` is a hexadecimal digit. -/
def isHexChar (c : Char) : Bool :=
  c.isDigit || ('a' ≤ c && c ≤ 'f') || ('A' ≤ c && c ≤ 'F')

/-- Whether `s` is a canonical textual uuid: 36 characters, hyphens at
positions 8, 13, 18 and 23, hexadecimal digits elsewhere. -/
def isUuidFormat (s : String) : Bool :=
  s.data.length = 36 &&
    s.data.enum.all fun p =>
      if p.1 = 8 || p.1 = 13 || p.1 = 18 || p.1 = 23 then p.2 = '-'
      else isHexChar p.2

/-- A parsed uuid, carried in canonical textual form (`uuid::Uuid`). -/
structure Uuid : Type where
  text : String
deriving DecidableEq, Repr

/-- Conversion `uuid.to_string()`. -/
def Uuid.toText (u : Uuid) : String := u.text

/-- Modelled from the spec: `Uuid::parse_str` of the external `uuid` crate,
restricted to canonical identifiers — it succeeds exactly on canonically
formatted uuid strings. -/
def uuidParseStr (s : String) : Option Uuid :=
  if isUuidFormat s then some ⟨s⟩ else none

/-- Leading and trailing whitespace removed. -/
def trimChars (l : List Char) : List Char :=
  ((l.dropWhile Char.isWhitespace).reverse.dropWhile Char.isWhitespace).reverse

/-- Modelled from the spec: the `ViewName` constrained value parser
(`flowy_workspace::entities::view::parser::ViewName`) is not under the
provided source tree.  Per the spec it fails on empty or over-long input and
otherwise wraps the trimmed string. -/
def ViewName.parse (s : String) : Except String String :=
  let t := trimChars s.data
  if t.isEmpty then .error "view name can not be empty or whitespace"
  else if 256 < t.length then .error "view name too long"
  else .ok (String.mk t)

/-- Modelled from the spec: the `ViewDesc` parser permits empty input but
enforces a maximum length. -/
def ViewDesc.parse (s : String) : Except String String :=
  if 1024 < s.data.length then .error "view description too long" else .ok s

/-- Modelled from the spec: the `ViewThumbnail` parser permits empty input but
enforces a maximum length. -/
def ViewThumbnail.parse (s : String) : Except String String :=
  if 1024 < s.data.length then .error "view thumbnail too long" else .ok s

/-- Modelled from the spec: the `ViewId` identifier parser fails if the input
fails to parse as a canonical identifier (fixed-length structured token). -/
def ViewId.parse (s : String) : Except String String :=
  if isUuidFormat s then .ok s else .error "invalid view id"

/-- Modelled from the spec: the `AppId` identifier parser (parent identifier),
same canonical-identifier contract as `ViewId`. -/
def AppId.parse (s : String) : Except String String :=
  if isUuidFormat s then .ok s else .error "invalid app id"

/-- Internal diagnostic classification of infrastructure failures. -/
inductive InfraDiag : Type where
  | connectivity
  | invariantViolation
deriving DecidableEq, Repr

/-- The server error taxonomy: recoverable validation failures, the not-found
negative result, builder contract violations, and infrastructure failures. -/
inductive ServerError : Type where
  | validation (msg : String)
  | notFound
  | build (msg : String)
  | infra (diag : InfraDiag)
  | internal (msg : String)
deriving DecidableEq, Repr

/-- Helper `invalid_params` — wrap a parser failure as the recoverable
"invalid parameters" error kind. -/
def invalid_params (msg : String) : ServerError := .validation msg

/-- Is this result a validation error? -/
def isValidationErr {α : Type} : Except ServerError α → Bool
  | .error (.validation _) => true
  | _ => false

/-- Is this result a builder error? -/
def isBuildErr {α : Type} : Except ServerError α → Bool
  | .error (.build _) => true
  | _ => false

/-- Is this result the not-found error? -/
def isNotFoundErr {α : Type} : Except ServerError α → Bool
  | .error .notFound => true
  | _ => false

/-- Modelled from the spec (persisted table shape): one row of `view_table`
(`entities::workspace::ViewTable`, not under the provided source tree). -/
structure ViewTable : Type where
  id : Uuid
  belong_to_id : String
  name : String
  description : String
  modified_time : Nat
  create_time : Nat
  thumbnail : String
  view_type : Int
  is_trash : Bool
deriving DecidableEq, Repr

/-- The database: the rows of `view_table`, in insertion order. -/
abbrev DB : Type := List ViewTable

/-- The transport-level `View` entity; `belongings` nests child views. -/
inductive View : Type where
  | mk (id : String) (belong_to_id : String) (name : String) (desc : String)
      (view_type : Int) (version : Int) (belongings : List View)

def View.id : View → String
  | .mk i _ _ _ _ _ _ => i

def View.belong_to_id : View → String
  | .mk _ b _ _ _ _ _ => b

def View.name : View → String
  | .mk _ _ n _ _ _ _ => n

def View.desc : View → String
  | .mk _ _ _ d _ _ _ => d

def View.view_type : View → Int
  | .mk _ _ _ _ t _ _ => t

def View.version : View → Int
  | .mk _ _ _ _ _ v _ => v

def View.belongings : View → List View
  | .mk _ _ _ _ _ _ bs => bs

/-- Replace the `belongings` collection of a view. -/
def View.withBelongings : View → List View → View
  | .mk i b n d t v _, bs => .mk i b n d t v bs

/-- Modelled from the spec: the `From<ViewTable> for View` conversion — copies
the row's scalar columns and leaves `belongings` unpopulated. -/
def viewFromTable (t : ViewTable) : View :=
  .mk t.id.toText t.belong_to_id t.name t.description t.view_type 0 []

/-- The response envelope: an empty success acknowledgment or a data payload. -/
structure FlowyResponse : Type where
  dataView : Option View

/-- Response `FlowyResponse::success()`. -/
def FlowyResponse.success : FlowyResponse := ⟨none⟩

/-- Response `FlowyResponse::success().data(view)`. -/
def FlowyResponse.dataOf (v : View) : FlowyResponse := ⟨some v⟩

/-- Request `protobuf::CreateViewParams`. -/
structure CreateViewParams : Type where
  name : String
  belong_to_id : String
  thumbnail : String
  desc : String
  view_type : Int
deriving Repr

/-- Request `protobuf::QueryViewParams`. -/
structure QueryViewParams : Type where
  view_id : String
  read_belongings : Bool
deriving DecidableEq, Repr

/-- Request `protobuf::UpdateViewParams`: the optional protobuf fields carry both a
presence bit (`has_x`) and a value (`get_x`, defaulted when absent), modelled
as `Option` — `isSome` is `has_x` and `getD` the protobuf getter. -/
structure UpdateViewParams : Type where
  view_id : String
  name : Option String
  desc : Option String
  thumbnail : Option String
  is_trash : Option Bool
deriving DecidableEq, Repr

/-- The observable actions of one service call, in order: acquiring the
transaction, executing a statement over it, committing. -/
inductive Action : Type where
  | beginTxn
  | execStmt (sql : String) (args : List Val)
  | commitTxn
deriving DecidableEq, Repr

/-- Look a column of a row up by name, as a bound value. -/
def rowField (r : ViewTable) : String → Option Val
  | "id" => some (.vUuid r.id.text)
  | "belong_to_id" => some (.vStr r.belong_to_id)
  | "name" => some (.vStr r.name)
  | "description" => some (.vStr r.description)
  | "modified_time" => some (.vTime r.modified_time)
  | "create_time" => some (.vTime r.create_time)
  | "thumbnail" => some (.vStr r.thumbnail)
  | "view_type" => some (.vInt r.view_type)
  | "is_trash" => some (.vBool r.is_trash)
  | _ => none

/-- Does the row satisfy every equality condition of the `WHERE` clause? -/
def rowMatches (r : ViewTable) (conds : List (String × Val)) : Bool :=
  conds.all fun p => rowField r p.1 == some p.2

/-- Modelled from the spec: Postgres executing the `INSERT` built from the
included column/value pairs — a row is assembled from the bound columns
(`is_trash`, never bound by this core's inserts, takes the column default). -/
def rowOfArgs (as : List (String × Val)) : Option ViewTable :=
  match as.lookup "id", as.lookup "belong_to_id", as.lookup "name",
      as.lookup "description", as.lookup "modified_time", as.lookup "create_time",
      as.lookup "thumbnail", as.lookup "view_type" with
  | some (.vUuid i), some (.vStr b), some (.vStr n), some (.vStr d),
      some (.vTime mt), some (.vTime ct), some (.vStr th), some (.vInt vt) =>
    some ⟨⟨i⟩, b, n, d, mt, ct, th, vt,
      match as.lookup "is_trash" with
      | some (.vBool tr) => tr
      | _ => false⟩
  | _, _, _, _, _, _, _, _ => none

/-- Apply one `SET` column/value pair to a row. -/
def applySet (r : ViewTable) : String × Val → ViewTable
  | ("name", .vStr s) => { r with name := s }
  | ("description", .vStr s) => { r with description := s }
  | ("thumbnail", .vStr s) => { r with thumbnail := s }
  | ("modified_time", .vTime t) => { r with modified_time := t }
  | ("is_trash", .vBool b) => { r with is_trash := b }
  | _ => r

/-- Modelled from the spec: Postgres executing a write statement built by the
builder — `INSERT` appends the assembled row, `UPDATE` applies the `SET` pairs
to every row matching the `WHERE` conditions, `DELETE` removes every matching
row.  Zero affected rows is not an error for any of them. -/
def execWrite (b : SqlBuilder) (db : DB) : DB :=
  match b.kind with
  | .insert =>
    match rowOfArgs b.includedArgs with
    | some r => db ++ [r]
    | none => db
  | .update =>
    db.map fun r => if rowMatches r b.conds then b.includedArgs.foldl applySet r else r
  | .delete => db.filter fun r => !(rowMatches r b.conds)
  | .select => db

/-- Modelled from the spec: Postgres executing a `SELECT` — the rows matching
the `WHERE` conditions, in stored order. -/
def execSelect (b : SqlBuilder) (db : DB) : List ViewTable :=
  db.filter fun r => rowMatches r b.conds

/-- The `sqlx` error cases this core observes. -/
inductive SqlxError : Type where
  | rowNotFound
  | moreThanOneRow
deriving DecidableEq, Repr

/-- Modelled from the spec: `fetch_one` expects exactly one row — zero rows is
the row-not-found condition, more than one row violates the uniqueness
expectation. -/
def fetch_one (rows : List ViewTable) : Except SqlxError ViewTable :=
  match rows with
  | [] => .error .rowNotFound
  | [r] => .ok r
  | _ :: _ :: _ => .error .moreThanOneRow

/-- Modelled from the spec: `map_sqlx_error` — row-not-found becomes the
recoverable not-found error, a uniqueness violation becomes a fatal
infrastructure error carrying the invariant-violation diagnostic. -/
def map_sqlx_error : SqlxError → ServerError
  | .rowNotFound => .notFound
  | .moreThanOneRow => .infra .invariantViolation

/-- The outcome of one service call: the result returned to the caller, the
ordered trace of transaction/statement actions, and the database afterwards. -/
structure SvcOut : Type where
  res : Except ServerError FlowyResponse
  trace : List Action
  db : DB

/-- Function `check_view_id` (view.rs:224-228): parse the raw identifier through the
`ViewId` constrained parser — failures surface as "invalid parameters" — then
through `Uuid::parse_str`, whose failure is converted by a generic `From`
conversion (not the validation kind). -/
def check_view_id (id : String) : Except ServerError Uuid :=
  match ViewId.parse id with
  | .error e => .error (invalid_params e)
  | .ok vid =>
    match uuidParseStr vid with
    | none => .error (.internal "uuid parse failure")
    | some u => .ok u

/-- The `INSERT` builder assembled by `create_view` (view.rs:43-52), the eight
columns in strict call order. -/
def create_view_builder (uuid : Uuid) (time : Nat)
    (belong_to_id name desc thumbnail : String) (view_type : Int) : SqlBuilder :=
  ((((((((SqlBuilder.create "view_table").add_arg "id" (.vUuid uuid.text)).add_arg
    "belong_to_id" (.vStr belong_to_id)).add_arg "name" (.vStr name)).add_arg
    "description" (.vStr desc)).add_arg "modified_time" (.vTime time)).add_arg
    "create_time" (.vTime time)).add_arg "thumbnail" (.vStr thumbnail)).add_arg
    "view_type" (.vInt view_type)

/-- Operation `create_view` (view.rs:26-75): validate the four inputs in order, then open
the transaction, generate the identifier and one timestamp (passed here as the
`uuid`/`time` arguments determinizing `Uuid::new_v4()` and `Utc::now()`),
build and execute the eight-column `INSERT`, commit, and return the
constructed `View`. -/
def create_view (db : DB) (uuid : Uuid) (time : Nat) (params : CreateViewParams) : SvcOut :=
  match ViewName.parse params.name with
  | .error e => ⟨.error (invalid_params e), [], db⟩
  | .ok name =>
  match AppId.parse params.belong_to_id with
  | .error e => ⟨.error (invalid_params e), [], db⟩
  | .ok belong_to_id =>
  match ViewThumbnail.parse params.thumbnail with
  | .error e => ⟨.error (invalid_params e), [], db⟩
  | .ok thumbnail =>
  match ViewDesc.parse params.desc with
  | .error e => ⟨.error (invalid_params e), [], db⟩
  | .ok desc =>
    let b := create_view_builder uuid time belong_to_id name desc thumbnail params.view_type
    match b.build with
    | .error e => ⟨.error (.build e), [.beginTxn], db⟩
    | .ok (sql, args) =>
      let view : View := .mk uuid.toText belong_to_id name desc params.view_type 0 []
      ⟨.ok (FlowyResponse.dataOf view), [.beginTxn, .execStmt sql args, .commitTxn],
        execWrite b db⟩

/-- Function `read_views_belong_to_id` (view.rs:201-222): the hierarchical sub-read.
It runs over the caller's already-open transaction — it never begins or
commits one itself, which is why its trace carries only the statement
execution. -/
def read_views_belong_to_id (db : DB) (id : String) :
    Except ServerError (List View) × List Action :=
  let b := ((SqlBuilder.select "view_table").add_field "*").and_where_eq
    "belong_to_id" (.vStr id)
  match b.build with
  | .error e => (.error (.build e), [])
  | .ok (sql, args) =>
    (.ok ((execSelect b db).map viewFromTable), [.execStmt sql args])

/-- Operation `read_view` (view.rs:77-111): validate the identifier, open the
transaction, `SELECT` by identifier equality expecting exactly one row, run
the hierarchical sub-read over the same transaction when requested, commit,
and return the assembled `View`. -/
def read_view (db : DB) (params : QueryViewParams) : SvcOut :=
  match check_view_id params.view_id with
  | .error e => ⟨.error e, [], db⟩
  | .ok view_id =>
    let b := ((SqlBuilder.select "view_table").add_field "*").and_where_eq
      "id" (.vUuid view_id.text)
    match b.build with
    | .error e => ⟨.error (.build e), [.beginTxn], db⟩
    | .ok (sql, args) =>
      match fetch_one (execSelect b db) with
      | .error e => ⟨.error (map_sqlx_error e), [.beginTxn, .execStmt sql args], db⟩
      | .ok table =>
        if params.read_belongings then
          match read_views_belong_to_id db table.id.toText with
          | (.error e, tr) => ⟨.error e, [.beginTxn, .execStmt sql args] ++ tr, db⟩
          | (.ok items, tr) =>
            ⟨.ok (FlowyResponse.dataOf ((viewFromTable table).withBelongings items)),
              ([.beginTxn, .execStmt sql args] ++ tr) ++ [.commitTxn], db⟩
        else
          ⟨.ok (FlowyResponse.dataOf ((viewFromTable table).withBelongings [])),
            [.beginTxn, .execStmt sql args, .commitTxn], db⟩

/-- One optional protobuf field of the update request: absent parses to
`none` unexamined, present input must pass the given constrained parser
(view.rs:119-144). -/
def parse_opt (p : String → Except String String) :
    Option String → Except ServerError (Option String)
  | none => .ok none
  | some s =>
    match p s with
    | .error e => .error (invalid_params e)
    | .ok v => .ok (some v)

/-- The `UPDATE` builder assembled by `update_view` (view.rs:151-158):
optional `SET` contributions for `name`/`description`/`thumbnail`, the
always-present `modified_time`, `is_trash` keyed on the request's presence
bit, and the identifier equality condition. -/
def update_view_builder (view_id : Uuid) (name desc thumbnail : Option String)
    (time : Nat) (is_trash : Option Bool) : SqlBuilder :=
  ((((((SqlBuilder.update "view_table").add_some_arg "name"
    (name.map Val.vStr)).add_some_arg "description"
    (desc.map Val.vStr)).add_some_arg "thumbnail"
    (thumbnail.map Val.vStr)).add_some_arg "modified_time"
    (some (.vTime time))).add_arg_if is_trash.isSome "is_trash"
    (.vBool (is_trash.getD false))).and_where_eq "id" (.vUuid view_id.text)

/-- Operation `update_view` (view.rs:113-171): validate the identifier and every
present optional field, open the transaction, build and execute the `UPDATE`
(`time` determinizes `Utc::now()`), commit, and return an empty success
acknowledgment — the execution result is not inspected. -/
def update_view (db : DB) (time : Nat) (params : UpdateViewParams) : SvcOut :=
  match check_view_id params.view_id with
  | .error e => ⟨.error e, [], db⟩
  | .ok view_id =>
  match parse_opt ViewName.parse params.name with
  | .error e => ⟨.error e, [], db⟩
  | .ok name =>
  match parse_opt ViewDesc.parse params.desc with
  | .error e => ⟨.error e, [], db⟩
  | .ok desc =>
  match parse_opt ViewThumbnail.parse params.thumbnail with
  | .error e => ⟨.error e, [], db⟩
  | .ok thumbnail =>
    let b := update_view_builder view_id name desc thumbnail time params.is_trash
    match b.build with
    | .error e => ⟨.error (.build e), [.beginTxn], db⟩
    | .ok (sql, args) =>
      ⟨.ok FlowyResponse.success, [.beginTxn, .execStmt sql args, .commitTxn],
        execWrite b db⟩

/-- Operation `delete_view` (view.rs:173-198): validate the identifier, open the
transaction, build and execute the `DELETE` scoped by identifier equality,
commit, and return an empty success acknowledgment — the execution result
(the affected-row count) is discarded. -/
def delete_view (db : DB) (view_id : String) : SvcOut :=
  match check_view_id view_id with
  | .error e => ⟨.error e, [], db⟩
  | .ok vid =>
    let b := (SqlBuilder.delete "view_table").and_where_eq "id" (.vUuid vid.text)
    match b.build with
    | .error e => ⟨.error (.build e), [.beginTxn], db⟩
    | .ok (sql, args) =>
      ⟨.ok FlowyResponse.success, [.beginTxn, .execStmt sql args, .commitTxn],
        execWrite b db⟩

/-- The argument list the builder is expected to return for each statement
shape: the included contributions in add order, then the `WHERE` condition
values (inserts and selects have only one of the two). -/
def SqlBuilder.expectedArgs (b : SqlBuilder) : List Val :=
  match b.kind with
  | .insert => b.includedArgs.map fun p => p.2
  | .select => b.conds.map fun p => p.2
  | .update => (b.includedArgs.map fun p => p.2) ++ b.conds.map fun p => p.2
  | .delete => b.conds.map fun p => p.2

lemma build_args (b : SqlBuilder) (sql : String) (args : List Val)
    (hb : b.build = .ok (sql, args)) : args = b.expectedArgs := by
  cases hk : b.kind with
  | insert =>
    unfold SqlBuilder.build at hb
    rw [hk] at hb
    by_cases he : b.includedArgs.isEmpty
    · simp [he] at hb
    · simp only [he, Bool.false_eq_true, if_false, Except.ok.injEq, Prod.mk.injEq] at hb
      simp [SqlBuilder.expectedArgs, hk, hb.2]
  | select =>
    unfold SqlBuilder.build at hb
    rw [hk] at hb
    simp only [Except.ok.injEq, Prod.mk.injEq] at hb
    simp [SqlBuilder.expectedArgs, hk, hb.2]
  | update =>
    unfold SqlBuilder.build at hb
    rw [hk] at hb
    by_cases he : b.includedArgs.isEmpty
    · simp [he] at hb
    · simp only [he, Bool.false_eq_true, if_false, Except.ok.injEq, Prod.mk.injEq] at hb
      simp [SqlBuilder.expectedArgs, hk, hb.2]
  | delete =>
    unfold SqlBuilder.build at hb
    rw [hk] at hb
    simp only [Except.ok.injEq, Prod.mk.injEq] at hb
    simp [SqlBuilder.expectedArgs, hk, hb.2]

/-- C1: for every statement the builder emits — any mix of unconditionally
added contributions, optional contributions of which only the present ones
count, and equality conditions — the SQL text contains exactly as many
positional placeholders as there are returned arguments, the placeholders read
`$1, $2, …` in textual order (so the i-th argument binds the i-th
placeholder), and the argument list is exactly the included values in add
order, regardless of which optional contributions were omitted. -/
theorem builder_roundtrip_placeholders_match_arguments
    (b : SqlBuilder) (h : b.noDollar) (sql : String) (args : List Val)
    (hb : b.build = .ok (sql, args)) :
    extractPlaceholders sql = List.range' 1 args.length ∧ args = b.expectedArgs :=
  ⟨build_extract b h sql args hb, build_args b sql args hb⟩

/-- Witness for C1 at a concrete update statement mixing present and absent
optional contributions. -/
theorem builder_roundtrip_placeholders_match_arguments_witness :
    (update_view_builder ⟨"00000000-0000-0000-0000-000000000000"⟩
        (some "N") none (some "T") 9 none).noDollar ∧
    (update_view_builder ⟨"00000000-0000-0000-0000-000000000000"⟩
        (some "N") none (some "T") 9 none).build =
      .ok ("UPDATE view_table SET name = $1, thumbnail = $2, modified_time = $3 WHERE id = $4",
        [.vStr "N", .vStr "T", .vTime 9,
          .vUuid "00000000-0000-0000-0000-000000000000"]) ∧
    extractPlaceholders
        "UPDATE view_table SET name = $1, thumbnail = $2, modified_time = $3 WHERE id = $4" =
      List.range' 1 ([Val.vStr "N", Val.vStr "T", Val.vTime 9,
        Val.vUuid "00000000-0000-0000-0000-000000000000"] : List Val).length :=
  ⟨by decide, by rfl,
    (builder_roundtrip_placeholders_match_arguments
      (update_view_builder ⟨"00000000-0000-0000-0000-000000000000"⟩
        (some "N") none (some "T") 9 none)
      (by decide) _ _ (by rfl)).1⟩

lemma check_view_id_spec (s : String) :
    (∃ u, check_view_id s = .ok u) ∨
      (∃ m, check_view_id s = .error (.validation m)) := by
  unfold check_view_id ViewId.parse uuidParseStr
  by_cases h : isUuidFormat s
  · exact Or.inl ⟨⟨s⟩, by simp [h]⟩
  · exact Or.inr ⟨"invalid view id", by simp [h, invalid_params]⟩

lemma parse_opt_error (p : String → Except String String) (o : Option String)
    (e : ServerError) (h : parse_opt p o = .error e) : ∃ m, e = .validation m := by
  cases o with
  | none => simp [parse_opt] at h
  | some s =>
    cases hp : p s with
    | error msg =>
      refine ⟨msg, ?_⟩
      simp [parse_opt, hp, invalid_params] at h
      exact h.symm
    | ok v => simp [parse_opt, hp] at h

lemma create_view_parse_fail (db : DB) (uuid : Uuid) (time : Nat)
    (cp : CreateViewParams)
    (h : (∃ e, ViewName.parse cp.name = .error e) ∨
      (∃ e, AppId.parse cp.belong_to_id = .error e) ∨
      (∃ e, ViewThumbnail.parse cp.thumbnail = .error e) ∨
      (∃ e, ViewDesc.parse cp.desc = .error e)) :
    ∃ m, create_view db uuid time cp = ⟨.error (.validation m), [], db⟩ := by
  cases h1 : ViewName.parse cp.name with
  | error e => exact ⟨e, by simp [create_view, h1, invalid_params]⟩
  | ok nm =>
    cases h2 : AppId.parse cp.belong_to_id with
    | error e => exact ⟨e, by simp [create_view, h1, h2, invalid_params]⟩
    | ok bid =>
      cases h3 : ViewThumbnail.parse cp.thumbnail with
      | error e => exact ⟨e, by simp [create_view, h1, h2, h3, invalid_params]⟩
      | ok th =>
        cases h4 : ViewDesc.parse cp.desc with
        | error e => exact ⟨e, by simp [create_view, h1, h2, h3, h4, invalid_params]⟩
        | ok d =>
          exfalso
          rcases h with ⟨e, he⟩ | ⟨e, he⟩ | ⟨e, he⟩ | ⟨e, he⟩ <;>
            simp [h1, h2, h3, h4] at he

lemma read_view_parse_fail (db : DB) (qp : QueryViewParams)
    (h : ∃ e, check_view_id qp.view_id = .error e) :
    ∃ m, read_view db qp = ⟨.error (.validation m), [], db⟩ := by
  rcases check_view_id_spec qp.view_id with ⟨u, hu⟩ | ⟨m, hm⟩
  · rcases h with ⟨e, he⟩
    rw [hu] at he
    cases he
  · exact ⟨m, by simp [read_view, hm]⟩

lemma update_view_parse_fail (db : DB) (time : Nat) (up : UpdateViewParams)
    (h : (∃ e, check_view_id up.view_id = .error e) ∨
      (∃ e, parse_opt ViewName.parse up.name = .error e) ∨
      (∃ e, parse_opt ViewDesc.parse up.desc = .error e) ∨
      (∃ e, parse_opt ViewThumbnail.parse up.thumbnail = .error e)) :
    ∃ m, update_view db time up = ⟨.error (.validation m), [], db⟩ := by
  cases h0 : check_view_id up.view_id with
  | error e =>
    rcases check_view_id_spec up.view_id with ⟨u, hu⟩ | ⟨m, hm⟩
    · rw [hu] at h0; cases h0
    · rw [hm] at h0
      injection h0 with h0
      exact ⟨m, by simp [update_view, hm, h0]⟩
  | ok u =>
    cases h1 : parse_opt ViewName.parse up.name with
    | error e =>
      rcases parse_opt_error _ _ _ h1 with ⟨m, rfl⟩
      exact ⟨m, by simp [update_view, h0, h1]⟩
    | ok nm =>
      cases h2 : parse_opt ViewDesc.parse up.desc with
      | error e =>
        rcases parse_opt_error _ _ _ h2 with ⟨m, rfl⟩
        exact ⟨m, by simp [update_view, h0, h1, h2]⟩
      | ok d =>
        cases h3 : parse_opt ViewThumbnail.parse up.thumbnail with
        | error e =>
          rcases parse_opt_error _ _ _ h3 with ⟨m, rfl⟩
          exact ⟨m, by simp [update_view, h0, h1, h2, h3]⟩
        | ok th =>
          exfalso
          rcases h with ⟨e, he⟩ | ⟨e, he⟩ | ⟨e, he⟩ | ⟨e, he⟩ <;>
            simp [h0, h1, h2, h3] at he

lemma delete_view_parse_fail (db : DB) (s : String)
    (h : ∃ e, check_view_id s = .error e) :
    ∃ m, delete_view db s = ⟨.error (.validation m), [], db⟩ := by
  rcases check_view_id_spec s with ⟨u, hu⟩ | ⟨m, hm⟩
  · rcases h with ⟨e, he⟩
    rw [hu] at he
    cases he
  · exact ⟨m, by simp [delete_view, hm]⟩

/-- C2: for every request to any of the four operations, if any input parser
fails the operation returns a validation error with an empty action trace —
no transaction is begun, no statement executed, and the database is
untouched — so input validation always completes before any transaction is
acquired. -/
theorem validation_completes_before_any_transaction :
    (∀ (db : DB) (uuid : Uuid) (time : Nat) (cp : CreateViewParams),
      ((∃ e, ViewName.parse cp.name = .error e) ∨
        (∃ e, AppId.parse cp.belong_to_id = .error e) ∨
        (∃ e, ViewThumbnail.parse cp.thumbnail = .error e) ∨
        (∃ e, ViewDesc.parse cp.desc = .error e)) →
      ∃ m, create_view db uuid time cp = ⟨.error (.validation m), [], db⟩) ∧
    (∀ (db : DB) (qp : QueryViewParams),
      (∃ e, check_view_id qp.view_id = .error e) →
      ∃ m, read_view db qp = ⟨.error (.validation m), [], db⟩) ∧
    (∀ (db : DB) (time : Nat) (up : UpdateViewParams),
      ((∃ e, check_view_id up.view_id = .error e) ∨
        (∃ e, parse_opt ViewName.parse up.name = .error e) ∨
        (∃ e, parse_opt ViewDesc.parse up.desc = .error e) ∨
        (∃ e, parse_opt ViewThumbnail.parse up.thumbnail = .error e)) →
      ∃ m, update_view db time up = ⟨.error (.validation m), [], db⟩) ∧
    (∀ (db : DB) (s : String),
      (∃ e, check_view_id s = .error e) →
      ∃ m, delete_view db s = ⟨.error (.validation m), [], db⟩) :=
  ⟨create_view_parse_fail, read_view_parse_fail, update_view_parse_fail,
    delete_view_parse_fail⟩

/-- Witness for C2: an empty name on create, and a malformed identifier on
read, update and delete, each yield a validation error with no transaction
action and the database unchanged. -/
theorem validation_completes_before_any_transaction_witness :
    (∃ e, ViewName.parse "" = .error e) ∧
    (∃ m, create_view [] ⟨"00000000-0000-0000-0000-000000000000"⟩ 0
        ⟨"", "11111111-1111-1111-1111-111111111111", "", "", 0⟩ =
      ⟨.error (.validation m), [], []⟩) ∧
    (∃ m, read_view [] ⟨"bad", false⟩ = ⟨.error (.validation m), [], []⟩) ∧
    (∃ m, update_view [] 0 ⟨"bad", none, none, none, none⟩ =
      ⟨.error (.validation m), [], []⟩) ∧
    (∃ m, delete_view [] "bad" = ⟨.error (.validation m), [], []⟩) :=
  ⟨⟨"view name can not be empty or whitespace", by rfl⟩,
    validation_completes_before_any_transaction.1 [] ⟨"00000000-0000-0000-0000-000000000000"⟩ 0
      ⟨"", "11111111-1111-1111-1111-111111111111", "", "", 0⟩
      (Or.inl ⟨"view name can not be empty or whitespace", by rfl⟩),
    validation_completes_before_any_transaction.2.1 [] ⟨"bad", false⟩
      ⟨.validation "invalid view id", by rfl⟩,
    validation_completes_before_any_transaction.2.2.1 [] 0 ⟨"bad", none, none, none, none⟩
      (Or.inl ⟨.validation "invalid view id", by rfl⟩),
    validation_completes_before_any_transaction.2.2.2 [] "bad"
      ⟨.validation "invalid view id", by rfl⟩⟩

/-- C7: every failure of the identifier path (`check_view_id`) is a
validation error — the recoverable "invalid parameters" kind — and read,
update and delete propagate that very error to the caller, so a malformed
identifier never yields any other error classification. -/
theorem identifier_failures_are_validation_errors (s : String) :
    (∀ e, check_view_id s = .error e → ∃ m, e = ServerError.validation m) ∧
    (∀ (db : DB) (qp : QueryViewParams), qp.view_id = s →
      ∀ e, check_view_id s = .error e → (read_view db qp).res = .error e) ∧
    (∀ (db : DB) (time : Nat) (up : UpdateViewParams), up.view_id = s →
      ∀ e, check_view_id s = .error e → (update_view db time up).res = .error e) ∧
    (∀ (db : DB), ∀ e, check_view_id s = .error e →
      (delete_view db s).res = .error e) := by
  refine ⟨?_, ?_, ?_, ?_⟩
  · intro e he
    rcases check_view_id_spec s with ⟨u, hu⟩ | ⟨m, hm⟩
    · rw [hu] at he; cases he
    · rw [hm] at he
      injection he with h
      exact ⟨m, h.symm⟩
  · intro db qp hqp e he
    subst hqp
    simp [read_view, he]
  · intro db time up hup e he
    subst hup
    simp [update_view, he]
  · intro db e he
    simp [delete_view, he]

/-- Witness for C7 at the malformed identifier `"bad"`. -/
theorem identifier_failures_are_validation_errors_witness :
    (∃ m, ServerError.validation "invalid view id" = ServerError.validation m) ∧
    (read_view [] ⟨"bad", true⟩).res = .error (.validation "invalid view id") ∧
    (update_view [] 1 ⟨"bad", some "x", none, none, some true⟩).res =
      .error (.validation "invalid view id") ∧
    (delete_view [] "bad").res = .error (.validation "invalid view id") :=
  ⟨(identifier_failures_are_validation_errors "bad").1
      (.validation "invalid view id") (by rfl),
    (identifier_failures_are_validation_errors "bad").2.1 [] ⟨"bad", true⟩ rfl
      (.validation "invalid view id") (by rfl),
    (identifier_failures_are_validation_errors "bad").2.2.1 [] 1
      ⟨"bad", some "x", none, none, some true⟩ rfl
      (.validation "invalid view id") (by rfl),
    (identifier_failures_are_validation_errors "bad").2.2.2 []
      (.validation "invalid view id") (by rfl)⟩

lemma update_builder_includedArgs (view_id : Uuid) (name desc thumbnail : Option String)
    (time : Nat) (is_trash : Option Bool) :
    (update_view_builder view_id name desc thumbnail time is_trash).includedArgs =
      (match name with | some s => [("name", Val.vStr s)] | none => []) ++
      (match desc with | some s => [("description", Val.vStr s)] | none => []) ++
      (match thumbnail with | some s => [("thumbnail", Val.vStr s)] | none => []) ++
      [("modified_time", Val.vTime time)] ++
      (match is_trash with | some v => [("is_trash", Val.vBool v)] | none => []) := by
  cases name <;> cases desc <;> cases thumbnail <;> cases is_trash <;>
    simp [update_view_builder, SqlBuilder.update, SqlBuilder.add_some_arg,
      SqlBuilder.add_arg_if, SqlBuilder.and_where_eq, SqlBuilder.includedArgs]

lemma update_builder_build_isOk (view_id : Uuid) (name desc thumbnail : Option String)
    (time : Nat) (is_trash : Option Bool) :
    ((update_view_builder view_id name desc thumbnail time is_trash).build).isOk = true := by
  have hne : (update_view_builder view_id name desc thumbnail time is_trash).includedArgs.isEmpty
      = false := by
    rw [update_builder_includedArgs]
    cases name <;> cases desc <;> cases thumbnail <;> cases is_trash <;> simp
  unfold SqlBuilder.build
  rw [show (update_view_builder view_id name desc thumbnail time is_trash).kind
    = .update from rfl]
  simp [hne, Except.isOk, Except.toBool]

/-- C9: the `UPDATE` built by `update_view` always carries `modified_time` as a
present contribution, so its `SET` clause is never empty: the builder succeeds
for every combination of optional fields, and `update_view` can never return
the builder's empty-`SET` build error. -/
theorem update_set_clause_never_empty :
    (∀ (view_id : Uuid) (name desc thumbnail : Option String) (time : Nat)
        (is_trash : Option Bool),
      ("modified_time", Val.vTime time) ∈
        (update_view_builder view_id name desc thumbnail time is_trash).includedArgs ∧
      ((update_view_builder view_id name desc thumbnail time is_trash).build).isOk = true) ∧
    (∀ (db : DB) (time : Nat) (up : UpdateViewParams),
      isBuildErr (update_view db time up).res = false) := by
  constructor
  · intro view_id name desc thumbnail time is_trash
    refine ⟨?_, update_builder_build_isOk view_id name desc thumbnail time is_trash⟩
    rw [update_builder_includedArgs]
    simp
  · intro db time up
    unfold update_view
    cases h0 : check_view_id up.view_id with
    | error e =>
      rcases check_view_id_spec up.view_id with ⟨u, hu⟩ | ⟨m, hm⟩
      · rw [hu] at h0; cases h0
      · rw [hm] at h0
        injection h0 with h0
        simp [← h0, isBuildErr]
    | ok u =>
      cases h1 : parse_opt ViewName.parse up.name with
      | error e =>
        rcases parse_opt_error _ _ _ h1 with ⟨m, rfl⟩
        simp [isBuildErr]
      | ok nm =>
        cases h2 : parse_opt ViewDesc.parse up.desc with
        | error e =>
          rcases parse_opt_error _ _ _ h2 with ⟨m, rfl⟩
          simp [isBuildErr]
        | ok d =>
          cases h3 : parse_opt ViewThumbnail.parse up.thumbnail with
          | error e =>
            rcases parse_opt_error _ _ _ h3 with ⟨m, rfl⟩
            simp [isBuildErr]
          | ok th =>
            cases h4 : (update_view_builder u nm d th time up.is_trash).build with
            | error e =>
              have := update_builder_build_isOk u nm d th time up.is_trash
              rw [h4] at this
              cases this
            | ok pair =>
              cases pair with
              | mk sql args => simp [h4, isBuildErr]

/-- C3: in the `UPDATE` built by `update_view`, each of `name`, `description`
and `thumbnail` contributes a `SET` column exactly when it is present in the
request (and a present field that fails its parser yields a validation error,
while an absent field is never examined), `modified_time` always contributes,
`is_trash` contributes exactly when the request carries the field — keyed on
presence, its boolean value only reaching the argument — and no other column
(`id`, `belong_to_id`, `view_type`, `create_time`) ever appears in the `SET`
clause. -/
theorem update_set_clause_keyed_on_presence (view_id : Uuid)
    (name desc thumbnail : Option String) (time : Nat) (is_trash : Option Bool) :
    ((update_view_builder view_id name desc thumbnail time is_trash).includedArgs.map
        Prod.fst =
      (match name with | some _ => ["name"] | none => []) ++
      (match desc with | some _ => ["description"] | none => []) ++
      (match thumbnail with | some _ => ["thumbnail"] | none => []) ++
      ["modified_time"] ++
      (match is_trash with | some _ => ["is_trash"] | none => [])) ∧
    (∀ c ∈ (update_view_builder view_id name desc thumbnail time is_trash).includedArgs.map
        Prod.fst,
      c = "name" ∨ c = "description" ∨ c = "thumbnail" ∨ c = "modified_time" ∨
        c = "is_trash") ∧
    (∀ p : String → Except String String, parse_opt p none = .ok none) ∧
    (∀ (db : DB) (t : Nat) (up : UpdateViewParams) (s e : String),
      (up.name = some s → ViewName.parse s = .error e →
        ∃ m, (update_view db t up).res = .error (.validation m)) ∧
      (up.desc = some s → ViewDesc.parse s = .error e →
        ∃ m, (update_view db t up).res = .error (.validation m)) ∧
      (up.thumbnail = some s → ViewThumbnail.parse s = .error e →
        ∃ m, (update_view db t up).res = .error (.validation m))) := by
  refine ⟨?_, ?_, fun p => rfl, ?_⟩
  · rw [update_builder_includedArgs]
    cases name <;> cases desc <;> cases thumbnail <;> cases is_trash <;> simp
  · intro c hc
    rw [update_builder_includedArgs] at hc
    cases name <;> cases desc <;> cases thumbnail <;> cases is_trash <;>
      (simp at hc; tauto)
  · intro db t up s e
    refine ⟨?_, ?_, ?_⟩
    · intro hn hp
      rcases update_view_parse_fail db t up
          (Or.inr (Or.inl ⟨invalid_params e, by simp [parse_opt, hn, hp]⟩)) with ⟨m, hm⟩
      exact ⟨m, by rw [hm]⟩
    · intro hn hp
      rcases update_view_parse_fail db t up
          (Or.inr (Or.inr (Or.inl ⟨invalid_params e, by simp [parse_opt, hn, hp]⟩))) with
        ⟨m, hm⟩
      exact ⟨m, by rw [hm]⟩
    · intro hn hp
      rcases update_view_parse_fail db t up
          (Or.inr (Or.inr (Or.inr ⟨invalid_params e, by simp [parse_opt, hn, hp]⟩))) with
        ⟨m, hm⟩
      exact ⟨m, by rw [hm]⟩

/-- Witness for C3 at a request carrying only `is_trash` (with value `false`),
and at a request with a present-but-empty `name`. -/
theorem update_set_clause_keyed_on_presence_witness :
    (update_view_builder ⟨"00000000-0000-0000-0000-000000000000"⟩
        none none none 3 (some false)).includedArgs.map Prod.fst =
      ["modified_time", "is_trash"] ∧
    (∃ m, (update_view [] 3
        ⟨"00000000-0000-0000-0000-000000000000", some "", none, none, none⟩).res =
      .error (.validation m)) :=
  ⟨(update_set_clause_keyed_on_presence ⟨"00000000-0000-0000-0000-000000000000"⟩
      none none none 3 (some false)).1,
    ((update_set_clause_keyed_on_presence ⟨"00000000-0000-0000-0000-000000000000"⟩
        none none none 3 (some false)).2.2.2 [] 3
      ⟨"00000000-0000-0000-0000-000000000000", some "", none, none, none⟩ ""
      "view name can not be empty or whitespace").1 rfl (by rfl)⟩

/-- C4: for every read with a valid identifier, a `SELECT` by identifier
equality matching zero rows yields the not-found error, while matching more
than one row yields an infrastructure error carrying the invariant-violation
diagnostic — distinguishable from the connectivity diagnostic — instead of a
`View`. -/
theorem read_expects_exactly_one_row (db : DB) (qp : QueryViewParams) (u : Uuid)
    (hc : check_view_id qp.view_id = .ok u) :
    (db.filter (fun r => rowMatches r [("id", Val.vUuid u.text)]) = [] →
      (read_view db qp).res = .error .notFound) ∧
    (∀ (r1 r2 : ViewTable) (rest : List ViewTable),
      db.filter (fun r => rowMatches r [("id", Val.vUuid u.text)]) = r1 :: r2 :: rest →
      (read_view db qp).res = .error (.infra .invariantViolation)) ∧
    InfraDiag.invariantViolation ≠ InfraDiag.connectivity := by
  refine ⟨?_, ?_, by decide⟩
  · intro h0
    simp [read_view, hc, SqlBuilder.build, SqlBuilder.select, SqlBuilder.add_field,
      SqlBuilder.and_where_eq, execSelect, h0, fetch_one, map_sqlx_error]
  · intro r1 r2 rest h0
    simp [read_view, hc, SqlBuilder.build, SqlBuilder.select, SqlBuilder.add_field,
      SqlBuilder.and_where_eq, execSelect, h0, fetch_one, map_sqlx_error]

/-- Witness for C4: an empty database yields not-found; a database holding the
same identifier twice yields the invariant-violation infrastructure error. -/
theorem read_expects_exactly_one_row_witness :
    (read_view [] ⟨"00000000-0000-0000-0000-000000000000", false⟩).res =
      .error .notFound ∧
    (read_view
        [⟨⟨"00000000-0000-0000-0000-000000000000"⟩, "p", "N", "", 1, 1, "", 0, false⟩,
          ⟨⟨"00000000-0000-0000-0000-000000000000"⟩, "p", "M", "", 1, 1, "", 0, false⟩]
        ⟨"00000000-0000-0000-0000-000000000000", false⟩).res =
      .error (.infra .invariantViolation) :=
  ⟨(read_expects_exactly_one_row [] ⟨"00000000-0000-0000-0000-000000000000", false⟩
      ⟨"00000000-0000-0000-0000-000000000000"⟩ (by rfl)).1 (by rfl),
    (read_expects_exactly_one_row
        [⟨⟨"00000000-0000-0000-0000-000000000000"⟩, "p", "N", "", 1, 1, "", 0, false⟩,
          ⟨⟨"00000000-0000-0000-0000-000000000000"⟩, "p", "M", "", 1, 1, "", 0, false⟩]
        ⟨"00000000-0000-0000-0000-000000000000", false⟩
        ⟨"00000000-0000-0000-0000-000000000000"⟩ (by rfl)).2.1
      ⟨⟨"00000000-0000-0000-0000-000000000000"⟩, "p", "N", "", 1, 1, "", 0, false⟩
      ⟨⟨"00000000-0000-0000-0000-000000000000"⟩, "p", "M", "", 1, 1, "", 0, false⟩
      [] (by rfl)⟩

/-- C5: for every read with a valid identifier that matches exactly one row,
`belongings` is populated if and only if hierarchical expansion was requested;
when populated it holds exactly the rows whose `belong_to_id` equals the read
row's id, converted one level deep (every returned child has empty
`belongings`), the whole call performs exactly one transaction acquisition,
and the sub-read itself never begins a transaction. -/
theorem read_belongings_iff_requested (db : DB) (qp : QueryViewParams) (u : Uuid)
    (t : ViewTable) (hc : check_view_id qp.view_id = .ok u)
    (hone : db.filter (fun r => rowMatches r [("id", Val.vUuid u.text)]) = [t]) :
    (qp.read_belongings = true →
      (read_view db qp).res = .ok (FlowyResponse.dataOf ((viewFromTable t).withBelongings
        ((db.filter (fun r => rowMatches r [("belong_to_id", Val.vStr t.id.toText)])).map
          viewFromTable))) ∧
      ∀ v ∈ (db.filter
          (fun r => rowMatches r [("belong_to_id", Val.vStr t.id.toText)])).map
            viewFromTable,
        v.belongings = []) ∧
    (qp.read_belongings = false →
      (read_view db qp).res =
        .ok (FlowyResponse.dataOf ((viewFromTable t).withBelongings []))) ∧
    (read_view db qp).trace.count .beginTxn = 1 ∧
    (∀ (db₂ : DB) (id : String),
      (read_views_belong_to_id db₂ id).2.count .beginTxn = 0) := by
  have hsub : ∀ (db₂ : DB) (id : String),
      (read_views_belong_to_id db₂ id).2.count Action.beginTxn = 0 := by
    intro db₂ id
    simp [read_views_belong_to_id, SqlBuilder.build, SqlBuilder.select,
      SqlBuilder.add_field, SqlBuilder.and_where_eq, List.count_cons]
  refine ⟨?_, ?_, ?_, hsub⟩
  · intro hreq
    constructor
    · simp [read_view, hc, SqlBuilder.build, SqlBuilder.select, SqlBuilder.add_field,
        SqlBuilder.and_where_eq, execSelect, hone, fetch_one, hreq,
        read_views_belong_to_id, Uuid.toText]
    · intro v hv
      simp only [List.mem_map] at hv
      rcases hv with ⟨r, _, rfl⟩
      simp [viewFromTable, View.belongings]
  · intro hreq
    simp [read_view, hc, SqlBuilder.build, SqlBuilder.select, SqlBuilder.add_field,
      SqlBuilder.and_where_eq, execSelect, hone, fetch_one, hreq]
  · cases hreq : qp.read_belongings <;>
      simp [read_view, hc, SqlBuilder.build, SqlBuilder.select, SqlBuilder.add_field,
        SqlBuilder.and_where_eq, execSelect, hone, fetch_one, hreq,
        read_views_belong_to_id, List.count_cons, List.count_append]

/-- Witness for C5: one parent row and one child row; reading the parent with
expansion returns the child one level deep, without expansion returns empty
belongings. -/
theorem read_belongings_iff_requested_witness :
    (read_view
        [⟨⟨"00000000-0000-0000-0000-000000000000"⟩, "p", "N", "", 1, 1, "", 0, false⟩,
          ⟨⟨"11111111-1111-1111-1111-111111111111"⟩,
            "00000000-0000-0000-0000-000000000000", "kid", "", 1, 1, "", 0, false⟩]
        ⟨"00000000-0000-0000-0000-000000000000", true⟩).res =
      .ok (FlowyResponse.dataOf
        ((viewFromTable
            ⟨⟨"00000000-0000-0000-0000-000000000000"⟩, "p", "N", "", 1, 1, "", 0,
              false⟩).withBelongings
          [viewFromTable
            ⟨⟨"11111111-1111-1111-1111-111111111111"⟩,
              "00000000-0000-0000-0000-000000000000", "kid", "", 1, 1, "", 0, false⟩])) ∧
    (read_view
        [⟨⟨"00000000-0000-0000-0000-000000000000"⟩, "p", "N", "", 1, 1, "", 0, false⟩]
        ⟨"00000000-0000-0000-0000-000000000000", false⟩).res =
      .ok (FlowyResponse.dataOf
        ((viewFromTable
            ⟨⟨"00000000-0000-0000-0000-000000000000"⟩, "p", "N", "", 1, 1, "", 0,
              false⟩).withBelongings [])) :=
  ⟨((read_belongings_iff_requested
      [⟨⟨"00000000-0000-0000-0000-000000000000"⟩, "p", "N", "", 1, 1, "", 0, false⟩,
        ⟨⟨"11111111-1111-1111-1111-111111111111"⟩,
          "00000000-0000-0000-0000-000000000000", "kid", "", 1, 1, "", 0, false⟩]
      ⟨"00000000-0000-0000-0000-000000000000", true⟩
      ⟨"00000000-0000-0000-0000-000000000000"⟩
      ⟨⟨"00000000-0000-0000-0000-000000000000"⟩, "p", "N", "", 1, 1, "", 0, false⟩
      (by rfl) (by rfl)).1 rfl).1,
    ((read_belongings_iff_requested
      [⟨⟨"00000000-0000-0000-0000-000000000000"⟩, "p", "N", "", 1, 1, "", 0, false⟩]
      ⟨"00000000-0000-0000-0000-000000000000", false⟩
      ⟨"00000000-0000-0000-0000-000000000000"⟩
      ⟨⟨"00000000-0000-0000-0000-000000000000"⟩, "p", "N", "", 1, 1, "", 0, false⟩
      (by rfl) (by rfl)).2.1 rfl)⟩

/-- C6: for every create whose four inputs validate, the built `INSERT`
carries exactly the eight columns `id, belong_to_id, name, description,
modified_time, create_time, thumbnail, view_type` in strict call order, binds
`modified_time` and `create_time` to the same timestamp, executes inside one
begin/execute/commit transaction, and the returned `View` carries the
generated identifier, version `0` and empty `belongings`. -/
theorem create_executes_eight_column_insert (db : DB) (uuid : Uuid) (time : Nat)
    (cp : CreateViewParams) (nm bid th d : String)
    (h1 : ViewName.parse cp.name = .ok nm) (h2 : AppId.parse cp.belong_to_id = .ok bid)
    (h3 : ViewThumbnail.parse cp.thumbnail = .ok th)
    (h4 : ViewDesc.parse cp.desc = .ok d) :
    (create_view_builder uuid time bid nm d th cp.view_type).includedArgs =
      [("id", .vUuid uuid.text), ("belong_to_id", .vStr bid), ("name", .vStr nm),
        ("description", .vStr d), ("modified_time", .vTime time),
        ("create_time", .vTime time), ("thumbnail", .vStr th),
        ("view_type", .vInt cp.view_type)] ∧
    ∃ sql args,
      (create_view_builder uuid time bid nm d th cp.view_type).build = .ok (sql, args) ∧
      args = [.vUuid uuid.text, .vStr bid, .vStr nm, .vStr d, .vTime time, .vTime time,
        .vStr th, .vInt cp.view_type] ∧
      create_view db uuid time cp =
        ⟨.ok (FlowyResponse.dataOf (.mk uuid.toText bid nm d cp.view_type 0 [])),
          [.beginTxn, .execStmt sql args, .commitTxn],
          execWrite (create_view_builder uuid time bid nm d th cp.view_type) db⟩ := by
  have hincl : (create_view_builder uuid time bid nm d th cp.view_type).includedArgs =
      [("id", .vUuid uuid.text), ("belong_to_id", .vStr bid), ("name", .vStr nm),
        ("description", .vStr d), ("modified_time", .vTime time),
        ("create_time", .vTime time), ("thumbnail", .vStr th),
        ("view_type", .vInt cp.view_type)] := by
    simp [create_view_builder, SqlBuilder.create, SqlBuilder.add_arg,
      SqlBuilder.includedArgs]
  refine ⟨hincl, ?_⟩
  cases hb : (create_view_builder uuid time bid nm d th cp.view_type).build with
  | error e =>
    exfalso
    unfold SqlBuilder.build at hb
    rw [show (create_view_builder uuid time bid nm d th cp.view_type).kind
      = .insert from rfl] at hb
    simp [hincl] at hb
  | ok pair =>
    cases pair with
    | mk sql args =>
      refine ⟨sql, args, rfl, ?_, ?_⟩
      · rw [build_args _ _ _ hb]
        simp [SqlBuilder.expectedArgs,
          show (create_view_builder uuid time bid nm d th cp.view_type).kind
            = .insert from rfl, hincl]
      · simp [create_view, h1, h2, h3, h4, hb]

/-- Witness for C6 at a concrete valid create request. -/
theorem create_executes_eight_column_insert_witness :
    ViewName.parse "Notes" = .ok "Notes" ∧
    (∃ sql args,
      (create_view_builder ⟨"00000000-0000-0000-0000-000000000000"⟩ 7
          "11111111-1111-1111-1111-111111111111" "Notes" "" "" 0).build = .ok (sql, args) ∧
      args = [.vUuid "00000000-0000-0000-0000-000000000000",
        .vStr "11111111-1111-1111-1111-111111111111", .vStr "Notes", .vStr "",
        .vTime 7, .vTime 7, .vStr "", .vInt 0] ∧
      create_view [] ⟨"00000000-0000-0000-0000-000000000000"⟩ 7
          ⟨"Notes", "11111111-1111-1111-1111-111111111111", "", "", 0⟩ =
        ⟨.ok (FlowyResponse.dataOf (.mk "00000000-0000-0000-0000-000000000000"
            "11111111-1111-1111-1111-111111111111" "Notes" "" 0 0 [])),
          [.beginTxn, .execStmt sql args, .commitTxn],
          execWrite (create_view_builder ⟨"00000000-0000-0000-0000-000000000000"⟩ 7
            "11111111-1111-1111-1111-111111111111" "Notes" "" "" 0) []⟩) :=
  ⟨by rfl,
    (create_executes_eight_column_insert [] ⟨"00000000-0000-0000-0000-000000000000"⟩ 7
      ⟨"Notes", "11111111-1111-1111-1111-111111111111", "", "", 0⟩
      "Notes" "11111111-1111-1111-1111-111111111111" "" ""
      (by rfl) (by rfl) (by rfl) (by rfl)).2⟩

/-- C8: delete is idempotent — with a valid identifier it reports success on
any database, including one holding no matching row (which it leaves
untouched), and two deletes in succession both report success. -/
theorem delete_idempotent (db : DB) (s : String) (u : Uuid)
    (hc : check_view_id s = .ok u) :
    (delete_view db s).res = .ok FlowyResponse.success ∧
    (delete_view ((delete_view db s).db) s).res = .ok FlowyResponse.success ∧
    ((∀ r ∈ db, rowMatches r [("id", Val.vUuid u.text)] = false) →
      (delete_view db s).db = db) := by
  have hres : ∀ (db₂ : DB), (delete_view db₂ s).res = .ok FlowyResponse.success := by
    intro db₂
    simp [delete_view, hc, SqlBuilder.build, SqlBuilder.delete, SqlBuilder.and_where_eq]
  refine ⟨hres db, hres _, ?_⟩
  intro hnone
  have hdb : (delete_view db s).db =
      db.filter fun r => !(rowMatches r [("id", Val.vUuid u.text)]) := by
    simp [delete_view, hc, SqlBuilder.build, SqlBuilder.delete, SqlBuilder.and_where_eq,
      execWrite]
  rw [hdb]
  exact List.filter_eq_self.mpr fun r hr => by simp [hnone r hr]

/-- Witness for C8: deleting an identifier absent from a one-row database
succeeds, leaves the database unchanged, and a second delete also succeeds. -/
theorem delete_idempotent_witness :
    (delete_view [⟨⟨"11111111-1111-1111-1111-111111111111"⟩, "p", "N", "", 1, 1, "", 0,
        false⟩] "00000000-0000-0000-0000-000000000000").res =
      .ok FlowyResponse.success ∧
    (delete_view ((delete_view [⟨⟨"11111111-1111-1111-1111-111111111111"⟩, "p", "N", "",
        1, 1, "", 0, false⟩] "00000000-0000-0000-0000-000000000000").db)
      "00000000-0000-0000-0000-000000000000").res = .ok FlowyResponse.success ∧
    (delete_view [⟨⟨"11111111-1111-1111-1111-111111111111"⟩, "p", "N", "", 1, 1, "", 0,
        false⟩] "00000000-0000-0000-0000-000000000000").db =
      [⟨⟨"11111111-1111-1111-1111-111111111111"⟩, "p", "N", "", 1, 1, "", 0, false⟩] :=
  ⟨(delete_idempotent [⟨⟨"11111111-1111-1111-1111-111111111111"⟩, "p", "N", "", 1, 1, "",
        0, false⟩] "00000000-0000-0000-0000-000000000000"
      ⟨"00000000-0000-0000-0000-000000000000"⟩ (by rfl)).1,
    (delete_idempotent [⟨⟨"11111111-1111-1111-1111-111111111111"⟩, "p", "N", "", 1, 1, "",
        0, false⟩] "00000000-0000-0000-0000-000000000000"
      ⟨"00000000-0000-0000-0000-000000000000"⟩ (by rfl)).2.1,
    (delete_idempotent [⟨⟨"11111111-1111-1111-1111-111111111111"⟩, "p", "N", "", 1, 1, "",
        0, false⟩] "00000000-0000-0000-0000-000000000000"
      ⟨"00000000-0000-0000-0000-000000000000"⟩ (by rfl)).2.2 (by decide)⟩

/-- C10: an update whose inputs validate returns the empty success
acknowledgment on every database — in particular when no row matches the
identifier — the result does not depend on the database at all, and no update
call ever produces the not-found error. -/
theorem update_zero_rows_still_succeeds (db : DB) (time : Nat)
    (up : UpdateViewParams) (u : Uuid) (nm d th : Option String)
    (hc : check_view_id up.view_id = .ok u)
    (hn : parse_opt ViewName.parse up.name = .ok nm)
    (hd : parse_opt ViewDesc.parse up.desc = .ok d)
    (ht : parse_opt ViewThumbnail.parse up.thumbnail = .ok th) :
    (update_view db time up).res = .ok FlowyResponse.success ∧
    (∀ (db₂ : DB), (update_view db₂ time up).res = .ok FlowyResponse.success) ∧
    (∀ (db₃ : DB) (t₃ : Nat) (up₃ : UpdateViewParams),
      isNotFoundErr (update_view db₃ t₃ up₃).res = false) := by
  have hok : ∀ (db₂ : DB), (update_view db₂ time up).res = .ok FlowyResponse.success := by
    intro db₂
    cases hb : (update_view_builder u nm d th time up.is_trash).build with
    | error e =>
      have := update_builder_build_isOk u nm d th time up.is_trash
      rw [hb] at this
      cases this
    | ok pair =>
      cases pair with
      | mk sql args => simp [update_view, hc, hn, hd, ht, hb]
  refine ⟨hok db, hok, ?_⟩
  intro db₃ t₃ up₃
  unfold update_view
  cases g0 : check_view_id up₃.view_id with
  | error e =>
    rcases check_view_id_spec up₃.view_id with ⟨u', hu⟩ | ⟨m, hm⟩
    · rw [hu] at g0; cases g0
    · rw [hm] at g0
      injection g0 with g0
      simp [← g0, isNotFoundErr]
  | ok u' =>
    cases g1 : parse_opt ViewName.parse up₃.name with
    | error e =>
      rcases parse_opt_error _ _ _ g1 with ⟨m, rfl⟩
      simp [isNotFoundErr]
    | ok nm' =>
      cases g2 : parse_opt ViewDesc.parse up₃.desc with
      | error e =>
        rcases parse_opt_error _ _ _ g2 with ⟨m, rfl⟩
        simp [isNotFoundErr]
      | ok d' =>
        cases g3 : parse_opt ViewThumbnail.parse up₃.thumbnail with
        | error e =>
          rcases parse_opt_error _ _ _ g3 with ⟨m, rfl⟩
          simp [isNotFoundErr]
        | ok th' =>
          cases g4 : (update_view_builder u' nm' d' th' t₃ up₃.is_trash).build with
          | error e =>
            have := update_builder_build_isOk u' nm' d' th' t₃ up₃.is_trash
            rw [g4] at this
            cases this
          | ok pair =>
            cases pair with
            | mk sql args => simp [g4, isNotFoundErr]

/-- Witness for C10: updating a name on an empty database (no matching row)
still reports success. -/
theorem update_zero_rows_still_succeeds_witness :
    (update_view [] 5
        ⟨"00000000-0000-0000-0000-000000000000", some "X", none, none, none⟩).res =
      .ok FlowyResponse.success ∧
    isNotFoundErr (update_view [] 5
        ⟨"00000000-0000-0000-0000-000000000000", some "X", none, none, none⟩).res =
      false :=
  ⟨(update_zero_rows_still_succeeds [] 5
      ⟨"00000000-0000-0000-0000-000000000000", some "X", none, none, none⟩
      ⟨"00000000-0000-0000-0000-000000000000"⟩ (some "X") none none
      (by rfl) (by rfl) (by rfl) (by rfl)).1,
    (update_zero_rows_still_succeeds [] 5
      ⟨"00000000-0000-0000-0000-000000000000", some "X", none, none, none⟩
      ⟨"00000000-0000-0000-0000-000000000000"⟩ (some "X") none none
      (by rfl) (by rfl) (by rfl) (by rfl)).2.2 [] 5
      ⟨"00000000-0000-0000-0000-000000000000", some "X", none, none, none⟩⟩

end ViewService
